import Mathlib

/-!
Shallow embedding of the Woodseer csv importer script and a verification of the
claims of its specification. Command-line values are `Option String` (an absent
flag is `none`); the destination store and the file system are external
collaborators modelled by an explicit environment, and every store or file
interaction of a run is recorded as an event so that run-level properties can
be stated about the trace and the resulting table.
-/

/-- Exception kinds the script can die with; an uncaught exception makes the
interpreter terminate with status 1. -/
inductive PyExc where
  | indexError
  | unboundLocalError
  | valueError
  | fileNotFoundError
  deriving DecidableEq

/-- Ways a run stops before `main` returns: an explicit `sys.exit code`, or an
uncaught exception. -/
inductive Halt where
  | exit (code : Nat)
  | uncaught (e : PyExc)
  deriving DecidableEq

/-- Process exit status produced by a `Halt`. -/
def halt_exit_code : Halt → Nat
  | Halt.exit c => c
  | Halt.uncaught _ => 1

/-- Character-wise embedding of the Python `str.lower` method (ASCII letters). -/
def py_lower (s : String) : String := String.mk (s.data.map Char.toLower)

/-- Embedding of the Python `str.strip` method: remove leading and trailing
whitespace. -/
def py_strip (s : String) : String :=
  String.mk (((s.data.dropWhile Char.isWhitespace).reverse.dropWhile Char.isWhitespace).reverse)

def isLeapYear (y : Nat) : Bool := (y % 4 == 0 && y % 100 != 0) || (y % 400 == 0)

def daysInMonth (y m : Nat) : Nat :=
  if m == 2 then (if isLeapYear y then 29 else 28)
  else if m == 4 || m == 6 || m == 9 || m == 11 then 30 else 31

def isValidYmd (y m d : Nat) : Bool :=
  decide (1 ≤ y) && decide (y ≤ 9999) && decide (1 ≤ m) && decide (m ≤ 12) &&
    decide (1 ≤ d) && decide (d ≤ daysInMonth y m)

/-- Value denoted by a list of digit characters. -/
def digitsToNat (cs : List Char) : Nat := cs.foldl (fun n c => 10 * n + (c.toNat - 48)) 0

/-- Split a character list at every dash. -/
def split_dash : List Char → List (List Char)
  | [] => [[]]
  | c :: cs =>
    if c = '-' then [] :: split_dash cs
    else
      match split_dash cs with
      | [] => [[c]]
      | g :: gs => (c :: g) :: gs

/-- Model of `datetime.strptime` with the dashed year-month-day format
succeeding: dash-separated year (1 to 4 digits), month and day (1 to 2 digits
each), denoting a valid Gregorian calendar date with year at least 1. -/
def strptimeYmdOk (s : String) : Bool :=
  match split_dash s.data with
  | [ys, ms, ds] =>
    decide (1 ≤ ys.length) && decide (ys.length ≤ 4) && ys.all Char.isDigit &&
    decide (1 ≤ ms.length) && decide (ms.length ≤ 2) && ms.all Char.isDigit &&
    decide (1 ≤ ds.length) && decide (ds.length ≤ 2) && ds.all Char.isDigit &&
    isValidYmd (digitsToNat ys) (digitsToNat ms) (digitsToNat ds)
  | _ => false

/-- Embedding of extract_date_from_filename (source lines 159 to 176). When the
length guard or the digit guard fails, the final return statement reads the
never-assigned local extracoldata, an uncaught UnboundLocalError; an invalid
calendar date raises a ValueError that the handler catches, logging and calling
sys.exit(1). -/
def extract_date_from_filename (sourcefilepath : String) : Except Halt String :=
  if sourcefilepath.length > 14 then
    let date := (sourcefilepath.data.drop (sourcefilepath.length - 14)).take 8
    if date.all Char.isDigit then
      let extracoldata :=
        String.mk (List.intercalate ['-'] [date.take 4, (date.drop 4).take 2, date.drop 6])
      if strptimeYmdOk extracoldata then Except.ok extracoldata
      else Except.error (Halt.exit 1)
    else Except.error (Halt.uncaught PyExc.unboundLocalError)
  else Except.error (Halt.uncaught PyExc.unboundLocalError)

/-- Embedding of generate_insert_query (lines 116 to 122). -/
def generate_insert_query (desttbl : String) (columns : List String) : String :=
  "insert into dbo." ++ desttbl ++ "(" ++ String.intercalate "," columns ++
    ") values (" ++ String.intercalate "," (columns.map fun _ => "?") ++ ")"

/-- Embedding of generate_delete_query (lines 125 to 132). -/
def generate_delete_query (desttbl extracol extracoldata : String) : String :=
  "delete from dbo." ++ desttbl ++ " where " ++ extracol ++ " = " ++ "\x27" ++
    extracoldata ++ "\x27"

/-- Removal, left to right and without overlap, of every occurrence of the two
character double-forward-slash pattern: embedding of the first replace call of
create_header_col_list. -/
def remove_double_slash : List Char → List Char
  | [] => []
  | [c] => [c]
  | c1 :: c2 :: cs =>
    if c1 = '/' && c2 = '/' then remove_double_slash cs
    else c1 :: remove_double_slash (c2 :: cs)

/-- Per-label cleanup of create_header_col_list (lines 216 to 219): the value
has the double-slash pattern removed, then every hyphen, then every space (the
three replace calls composed). -/
def clean_col (value : String) : String :=
  String.mk (((remove_double_slash value.data).filter fun c => c != '-').filter
    fun c => c != ' ')

/-- Embedding of create_header_col_list (lines 209 to 222): the loop appends the
cleaned labels in order, then the synthetic extra column name. -/
def create_header_col_list (desttbl : String) (header : List String) (extracol : String) :
    List String :=
  (header.foldl (fun columns value => columns ++ [clean_col value]) []) ++ [extracol]

/-- Embedding of validate_inputs (lines 281 to 326). Each check prints a message
and exits with status 1; a Full import with an unparsable extracoldata re-raises
the ValueError, which is then uncaught. -/
def validate_inputs (importtype destinst destdb : Option String)
    (trustedconnection destuser destpass : Option String)
    (desttbl sourcefilepath extracoldata : Option String) : Except Halt Unit :=
  if importtype.isNone then Except.error (Halt.exit 1)
  else if destinst.isNone then Except.error (Halt.exit 1)
  else if destdb.isNone then Except.error (Halt.exit 1)
  else if desttbl.isNone then Except.error (Halt.exit 1)
  else if sourcefilepath.isNone then Except.error (Halt.exit 1)
  else if (match trustedconnection with
           | some tc => py_lower tc != "yes" && destuser.isNone
           | none => false) then Except.error (Halt.exit 1)
  else if (match trustedconnection with
           | some tc => py_lower tc != "yes" && destpass.isNone
           | none => false) then Except.error (Halt.exit 1)
  else if extracoldata.isNone && py_lower (importtype.getD "") == "full" then
    Except.error (Halt.exit 1)
  else if py_lower (importtype.getD "") == "full" && extracoldata.isSome then
    (if strptimeYmdOk (extracoldata.getD "") then Except.ok ()
     else Except.error (Halt.uncaught PyExc.valueError))
  else Except.ok ()

/-- The nine argparse values of the script; a missing flag is `none`. -/
structure Args where
  importtype : Option String
  destinst : Option String
  destdb : Option String
  trustedconnection : Option String
  destuser : Option String
  destpass : Option String
  desttbl : Option String
  sourcefilepath : Option String
  extracoldata : Option String
  deriving DecidableEq

/-- One row of the destination table: the positional field values bound to the
csv columns, and the value bound to the partition date column. -/
structure DbRow where
  data : List String
  diff : String
  deriving DecidableEq

/-- Observable interactions of a run with the store and the file system. -/
inductive Event where
  | connectAttempt (connStr : String)
  | execSql (query : String)
  | execInsert (query : String) (params : List String)
  | commit
  | openFile (path : String)
  deriving DecidableEq

/-- Destination table contents plus the trace of recorded events. -/
structure World where
  table : List DbRow
  events : List Event
  deriving DecidableEq

/-- External behaviour: file contents by path, whether connecting succeeds for a
given connection string, and whether the table existence probe succeeds. -/
structure Env where
  files : String → Option (List (List String))
  connectOk : String → Bool
  tableOk : Bool

/-- Connection string built by establish_db_connection (lines 184 to 189). -/
def connection_string (destinst : String) (trustedconnection : Option String)
    (destuser destpass destdb : String) : String :=
  let base := "Driver=\x7bSQL Server\x7d;Server=" ++ py_strip destinst ++ ";" ++
    "Database=" ++ py_strip destdb ++ ";"
  if trustedconnection == some "yes" then base ++ "Trusted_Connection=yes;"
  else base ++ "User=" ++ py_strip destuser ++ ";Password=" ++ py_strip destpass ++
    ";Trusted_Connection=no;"

/-- Embedding of establish_db_connection (lines 179 to 197): a first connect is
attempted inside the handler and its handle discarded; on success the return
statement connects a second time with the same string, on failure the handler
logs and exits with status 1. -/
def establish_db_connection (env : Env) (destinst : String)
    (trustedconnection : Option String) (destuser destpass destdb desttbl : String)
    (w : World) : World × Except Halt Unit :=
  let s := connection_string destinst trustedconnection destuser destpass destdb
  if env.connectOk s then
    ({ w with events := w.events ++ [Event.connectAttempt s, Event.connectAttempt s] },
      Except.ok ())
  else
    ({ w with events := w.events ++ [Event.connectAttempt s] }, Except.error (Halt.exit 1))

/-- Embedding of check_destination_table_existence (lines 135 to 147). -/
def check_destination_table_existence (env : Env) (destdb desttbl : String) (w : World) :
    World × Except Halt Unit :=
  let q := "Select top 1 * from " ++ destdb ++ ".dbo." ++ desttbl
  if env.tableOk then
    ({ w with events := w.events ++ [Event.execSql q, Event.commit] }, Except.ok ())
  else
    ({ w with events := w.events ++ [Event.execSql q] }, Except.error (Halt.exit 1))

/-- Embedding of delete_table_data (lines 150 to 156). The store reaction is
modelled from the spec: executing the delete statement built for the partition
column removes every table row whose partition-column value equals the date
literal, and the commit makes the removal durable. -/
def delete_table_data (delete_query : String) (extracoldata desttbl : String) (w : World) :
    World :=
  { table := w.table.filter fun r => r.diff != extracoldata,
    events := w.events ++ [Event.execSql delete_query, Event.commit] }

/-- Embedding of read_csv (lines 200 to 206): opening the file at the given path
and returning all of its rows; a missing file is an uncaught error. -/
def read_csv (env : Env) (sourcefilepath desttbl : String) (w : World) :
    World × Except Halt (List (List String)) :=
  let w1 : World := { w with events := w.events ++ [Event.openFile sourcefilepath] }
  match env.files sourcefilepath with
  | some rows => (w1, Except.ok rows)
  | none => (w1, Except.error (Halt.uncaught PyExc.fileNotFoundError))

/-- One iteration of the write loop (lines 233 to 240): when extracoldata is not
the empty string, the date is appended to the row and the parameterized insert
executed; otherwise nothing is submitted for the row. The counter increments
either way, which the caller accounts for separately. -/
def write_step (extracoldata query : String) (w : World) (reader : List String) : World :=
  if extracoldata != "" then
    { table := w.table ++ [⟨reader, extracoldata⟩],
      events := w.events ++ [Event.execInsert query (reader ++ [extracoldata])] }
  else w

/-- Embedding of write_records_to_db (lines 225 to 244): the header row is
removed first (an empty list raises IndexError), the remaining rows are
processed by the loop, one commit follows the loop, and the returned counter
started at 1 and was incremented once per data row. -/
def write_records_to_db (readers : List (List String)) (extracoldata query : String)
    (total : Nat) (w : World) : World × Except Halt Nat :=
  match readers with
  | [] => (w, Except.error (Halt.uncaught PyExc.indexError))
  | _ :: rest =>
    let w2 := rest.foldl (write_step extracoldata query) w
    ({ w2 with events := w2.events ++ [Event.commit] }, Except.ok (rest.length + 1))

/-- Embedding of copy_data_from_csv_to_sql_server_table (lines 247 to 278). The
two bare names assigned to destuser and destpass in the source (lines 263 and
264) are modelled as the hard-coded literal credentials they spell; either way
the credentials supplied by the caller are discarded before connecting. -/
def copy_data_from_csv_to_sql_server_table (env : Env) (importtype destinst : String)
    (trustedconnection : Option String) (destuser destpass : Option String)
    (destdb desttbl sourcefilepath extracol extracoldata : String) (w : World) :
    World × Except Halt Nat :=
  let destuser := "jabran"
  let destpass := "pass"
  match establish_db_connection env destinst trustedconnection destuser destpass destdb
      desttbl w with
  | (w1, Except.error h) => (w1, Except.error h)
  | (w1, Except.ok ()) =>
    match check_destination_table_existence env destdb desttbl w1 with
    | (w2, Except.error h) => (w2, Except.error h)
    | (w2, Except.ok ()) =>
      let w3 :=
        if py_lower importtype == "daily" then
          delete_table_data (generate_delete_query desttbl extracol extracoldata)
            extracoldata desttbl w2
        else w2
      match read_csv env sourcefilepath desttbl w3 with
        | (w4, Except.error h) => (w4, Except.error h)
        | (w4, Except.ok readers) =>
          let total_recs_in_csv := readers.length
          match readers with
          | [] => (w4, Except.error (Halt.uncaught PyExc.indexError))
          | hd :: _ =>
            let columns := create_header_col_list desttbl hd extracol
            let insert_query := generate_insert_query desttbl columns
            match write_records_to_db readers extracoldata insert_query total_recs_in_csv
                w4 with
            | (w5, Except.error h) => (w5, Except.error h)
            | (w5, Except.ok written) =>
              (w5, Except.ok (if total_recs_in_csv == written then 0 else 1))

/-- Date selection of main (lines 341 to 344): a daily import extracts the date
from the raw source file path, any other import takes the extracoldata flag. -/
def derive_date (args : Args) : Except Halt (Option String) :=
  if py_lower (args.importtype.getD "") == "daily" then
    match extract_date_from_filename (args.sourcefilepath.getD "") with
    | Except.ok d => Except.ok (some d)
    | Except.error h => Except.error h
  else Except.ok args.extracoldata

/-- Embedding of main (lines 329 to 364): validation, date selection, then the
copy with instance, database, table and file path lowercased. When the date is
absent the final return statement reads the never-assigned local failed, an
uncaught UnboundLocalError. -/
def main_run (env : Env) (args : Args) (w : World) : World × Except Halt Nat :=
  match validate_inputs args.importtype args.destinst args.destdb args.trustedconnection
      args.destuser args.destpass args.desttbl args.sourcefilepath args.extracoldata with
  | Except.error h => (w, Except.error h)
  | Except.ok () =>
    match derive_date args with
    | Except.error h => (w, Except.error h)
    | Except.ok none => (w, Except.error (Halt.uncaught PyExc.unboundLocalError))
    | Except.ok (some date) =>
      copy_data_from_csv_to_sql_server_table env
        (py_lower (args.importtype.getD ""))
        (py_lower (args.destinst.getD ""))
        args.trustedconnection args.destuser args.destpass
        (py_lower (args.destdb.getD ""))
        (py_lower (args.desttbl.getD ""))
        (py_lower (args.sourcefilepath.getD ""))
        "DiffDateTime" date w

/-- Top level of the script (lines 367 and 368): the module guard calls main and
discards its return value, so a main that returns makes the interpreter exit
with status 0; sys.exit propagates its code and an uncaught exception exits
with status 1. -/
def script_exit_code (env : Env) (args : Args) : Nat :=
  match (main_run env args ⟨[], []⟩).2 with
  | Except.ok _ => 0
  | Except.error h => halt_exit_code h

def countConnects (evs : List Event) : Nat :=
  (evs.filter fun e => match e with | Event.connectAttempt _ => true | _ => false).length

def countInserts (evs : List Event) : Nat :=
  (evs.filter fun e => match e with | Event.execInsert _ _ => true | _ => false).length

def countCommits (evs : List Event) : Nat :=
  (evs.filter fun e => match e with | Event.commit => true | _ => false).length

/-- Formatted date the extractor builds from characters 14 through 7 from the
end of the file name. -/
def extract_formatted (s : String) : String :=
  let date := (s.data.drop (s.length - 14)).take 8
  String.mk (List.intercalate ['-'] [date.take 4, (date.drop 4).take 2, date.drop 6])

/-- Shape under which extraction actually succeeds: length above 14 and the
characters 14 through 7 from the end form an 8 digit valid calendar date. -/
def extract_good (s : String) : Bool :=
  decide (s.length > 14) && ((s.data.drop (s.length - 14)).take 8).all Char.isDigit &&
    strptimeYmdOk (extract_formatted s)

/-- Filename pattern the claim describes, stated from the words of the spec for
comparison with the code: the name ends in an 8 digit valid calendar date
immediately followed by the fixed suffix 19 and the csv extension. -/
def claim_filename_pattern (s : String) : Bool :=
  decide (s.length ≥ 14) &&
    (let tail14 := s.data.drop (s.length - 14)
     let date := tail14.take 8
     date.all Char.isDigit &&
       strptimeYmdOk
         (String.mk (List.intercalate ['-'] [date.take 4, (date.drop 4).take 2, date.drop 6])) &&
       tail14.drop 8 == "19.csv".data)

/-- C4 counterexample: a file name that does not end in date, fixed suffix and
extension, for which the claim demands failure, from which the extractor
nevertheless returns a date: the six trailing characters are never checked. -/
theorem C4_counterexample :
    claim_filename_pattern "ab20210707999999" = false ∧
    extract_date_from_filename "ab20210707999999" = Except.ok "2021-07-07" :=
  ⟨by decide, rfl⟩

/-- C4 amended: extraction succeeds with the reformatted date exactly when the
file name has length above 14 and its characters 14 through 7 from the end are
8 digits forming a valid calendar date; the trailing six characters, intended
as the fixed suffix plus extension, are not inspected, and a name of length
exactly 14 fails the strict length guard. For every other file name the
process halts with exit status 1, either through the logged date-parse failure
or through an uncaught UnboundLocalError. -/
theorem extract_date_cases (s : String) :
    extract_date_from_filename s =
      if s.length > 14 then
        if ((s.data.drop (s.length - 14)).take 8).all Char.isDigit then
          if strptimeYmdOk (extract_formatted s) then Except.ok (extract_formatted s)
          else Except.error (Halt.exit 1)
        else Except.error (Halt.uncaught PyExc.unboundLocalError)
      else Except.error (Halt.uncaught PyExc.unboundLocalError) := rfl

theorem C4_extract_amended (s : String) :
    (extract_good s = true → extract_date_from_filename s = Except.ok (extract_formatted s)) ∧
    (extract_good s = false →
      ∃ h, extract_date_from_filename s = Except.error h ∧ halt_exit_code h = 1) := by
  constructor
  · intro hg
    unfold extract_good at hg
    simp only [Bool.and_eq_true, decide_eq_true_eq] at hg
    rw [extract_date_cases, if_pos hg.1.1, if_pos hg.1.2, if_pos hg.2]
  · intro hg
    by_cases h1 : s.length > 14
    · by_cases h2 : ((s.data.drop (s.length - 14)).take 8).all Char.isDigit = true
      · by_cases h3 : strptimeYmdOk (extract_formatted s) = true
        · exfalso
          unfold extract_good at hg
          simp [h1, h2, h3] at hg
        · rw [extract_date_cases, if_pos h1, if_pos h2, if_neg h3]
          exact ⟨_, rfl, rfl⟩
      · rw [extract_date_cases, if_pos h1, if_neg h2]
        exact ⟨_, rfl, rfl⟩
    · rw [extract_date_cases, if_neg h1]
      exact ⟨_, rfl, rfl⟩

/-- C4 witness: a concrete well-shaped file name on which the amended theorem
yields the extracted date. -/
theorem C4_witness :
    extract_date_from_filename "x2021070719.csv" = Except.ok "2021-07-07" := by
  exact (C4_extract_amended "x2021070719.csv").1 (by decide)

/-- Whether the two character double-forward-slash pattern occurs in the list. -/
def contains_double_slash : List Char → Bool
  | [] => false
  | [_] => false
  | c1 :: c2 :: cs => (c1 = '/' && c2 = '/') || contains_double_slash (c2 :: cs)

/-- Labels the spec calls already clean: no space, no hyphen, and no occurrence
of the double-forward-slash pattern. -/
def clean_label (l : String) : Bool :=
  l.data.all (fun c => c != ' ') && l.data.all (fun c => c != '-') &&
    !(contains_double_slash l.data)

theorem remove_double_slash_of_not_contains : ∀ l : List Char,
    contains_double_slash l = false → remove_double_slash l = l
  | [], _ => rfl
  | [_], _ => rfl
  | c1 :: c2 :: cs, h => by
    simp only [contains_double_slash, Bool.or_eq_false_iff] at h
    simp only [remove_double_slash, h.1, if_false, Bool.false_eq_true, List.cons.injEq,
      true_and]
    exact remove_double_slash_of_not_contains (c2 :: cs) h.2

/-- C5 counterexample: a label with a single forward slash keeps it, because the
code removes only the two character double-slash pattern, never lone slash
characters; the claimed normalization would produce the label ab. -/
theorem C5_counterexample :
    create_header_col_list "t" ["a/b"] "DiffDateTime" = ["a/b", "DiffDateTime"] ∧
    create_header_col_list "t" ["a/b"] "DiffDateTime" ≠ ["ab", "DiffDateTime"] :=
  ⟨by decide, by decide⟩

theorem foldl_append_map (f : String → String) : ∀ (header acc : List String),
    header.foldl (fun columns value => columns ++ [f value]) acc = acc ++ header.map f
  | [], acc => by simp
  | v :: vs, acc => by
    simp only [List.foldl_cons, List.map_cons, foldl_append_map f vs (acc ++ [f v])]
    simp

/-- C5 amended: normalization removes every space, every hyphen and every
occurrence of the two character double-forward-slash pattern from each label (a
lone forward slash is preserved), keeps every label in order even when one
normalizes to the empty string, appends the synthetic partition column as the
final entry so that the output length is the input length plus one, and is the
identity on labels already free of space, hyphen and the double-slash
pattern. -/
theorem C5_normalizer_amended (desttbl : String) (header : List String) (extracol : String) :
    create_header_col_list desttbl header extracol = header.map clean_col ++ [extracol] ∧
    (create_header_col_list desttbl header extracol).length = header.length + 1 ∧
    ∀ l : String, clean_label l = true → clean_col l = l := by
  have hmain : create_header_col_list desttbl header extracol =
      header.map clean_col ++ [extracol] := by
    unfold create_header_col_list
    rw [foldl_append_map clean_col header []]
    simp
  refine ⟨hmain, ?_, ?_⟩
  · rw [hmain]; simp
  · intro l hl
    simp only [clean_label, Bool.and_eq_true, Bool.not_eq_eq_eq_not, Bool.not_true] at hl
    obtain ⟨⟨hspace, hhyphen⟩, hslash⟩ := hl
    unfold clean_col
    rw [remove_double_slash_of_not_contains l.data hslash,
      List.filter_eq_self.mpr (List.all_eq_true.mp hhyphen),
      List.filter_eq_self.mpr (List.all_eq_true.mp hspace)]

/-- C5 witness: the amended theorem applied to a concrete header with a space
and a hyphen, and to a concrete already-clean label. -/
theorem C5_witness :
    clean_col "DateTicker" = "DateTicker" ∧
    create_header_col_list "t2" ["a b", "c-d"] "DiffDateTime" = ["ab", "cd", "DiffDateTime"] := by
  constructor
  · exact (C5_normalizer_amended "t2" ["a b", "c-d"] "DiffDateTime").2.2 "DateTicker" (by decide)
  · rw [(C5_normalizer_amended "t2" ["a b", "c-d"] "DiffDateTime").1]; decide

/-- C7 counterexample: the validator accepts a run in which trusted
authentication is not requested (the flag is absent) while both credentials are
missing, and accepts an empty database name; the claim requires both runs to be
rejected with exit status 1. -/
theorem C7_counterexample :
    validate_inputs (some "Daily") (some "srv2") (some "db2") none none none
      (some "tbl2") (some "file2.csv") none = Except.ok () ∧
    validate_inputs (some "Daily") (some "srv3") (some "") none (some "u") (some "p")
      (some "tbl3") (some "file3.csv") none = Except.ok () :=
  ⟨rfl, rfl⟩

/-- C7 amended: the validator rejects with exit status 1 on missing (None)
values, not on empty strings: it rejects when any of importtype, destinst,
destdb, desttbl or sourcefilepath is absent, and when trustedconnection is
supplied with a value other than yes (case-insensitively) while destuser or
destpass is absent. When trustedconnection is absent the credential check is
skipped entirely, and empty strings pass every presence check. Any such
rejection happens before any store or file interaction: the run ends with the
world unchanged and no recorded event. -/
theorem C7_validator_amended
    (importtype destinst destdb trustedconnection destuser destpass : Option String)
    (desttbl sourcefilepath extracoldata : Option String) :
    ((importtype = none ∨ destinst = none ∨ destdb = none ∨ desttbl = none ∨
        sourcefilepath = none) →
      validate_inputs importtype destinst destdb trustedconnection destuser destpass
        desttbl sourcefilepath extracoldata = Except.error (Halt.exit 1)) ∧
    (∀ tc, trustedconnection = some tc → py_lower tc ≠ "yes" →
      (destuser = none ∨ destpass = none) →
      validate_inputs importtype destinst destdb trustedconnection destuser destpass
        desttbl sourcefilepath extracoldata = Except.error (Halt.exit 1)) ∧
    (validate_inputs importtype destinst destdb trustedconnection destuser destpass
        desttbl sourcefilepath extracoldata = Except.error (Halt.exit 1) →
      ∀ env t0, main_run env ⟨importtype, destinst, destdb, trustedconnection, destuser,
        destpass, desttbl, sourcefilepath, extracoldata⟩ ⟨t0, []⟩ =
        (⟨t0, []⟩, Except.error (Halt.exit 1))) := by
  refine ⟨?_, ?_, ?_⟩
  · intro h
    cases importtype <;> cases destinst <;> cases destdb <;> cases desttbl <;>
      cases sourcefilepath <;>
      first
        | rfl
        | (rcases h with h | h | h | h | h <;> exact Option.noConfusion h)
  · intro tc htc hlow hcred
    subst htc
    have hbne : (py_lower tc != "yes") = true := bne_iff_ne.mpr hlow
    rcases hcred with hc | hc <;> subst hc
    · cases importtype <;> cases destinst <;> cases destdb <;> cases desttbl <;>
        cases sourcefilepath <;>
        simp [validate_inputs, hbne]
    · cases importtype <;> cases destinst <;> cases destdb <;> cases desttbl <;>
        cases sourcefilepath <;> cases destuser <;>
        simp [validate_inputs, hbne]
  · intro hrej env t0
    unfold main_run
    rw [hrej]

/-- C7 witness: the amended theorem applied to a concrete request missing
the import type. -/
theorem C7_witness :
    validate_inputs none (some "i") (some "d") none none none (some "t") (some "s") none =
      Except.error (Halt.exit 1) :=
  (C7_validator_amended none (some "i") (some "d") none none none (some "t") (some "s")
    none).1 (Or.inl rfl)

theorem countConnects_append (a b : List Event) :
    countConnects (a ++ b) = countConnects a + countConnects b := by
  simp [countConnects, List.filter_append]

theorem countInserts_append (a b : List Event) :
    countInserts (a ++ b) = countInserts a + countInserts b := by
  simp [countInserts, List.filter_append]

theorem countCommits_append (a b : List Event) :
    countCommits (a ++ b) = countCommits a + countCommits b := by
  simp [countCommits, List.filter_append]

theorem countInserts_insert_map (query extracoldata : String) :
    ∀ rest : List (List String),
      countInserts (rest.map fun r => Event.execInsert query (r ++ [extracoldata])) =
        rest.length
  | [] => rfl
  | r :: rs => by
    have ih := countInserts_insert_map query extracoldata rs
    simpa [countInserts, List.filter_cons] using ih

theorem countCommits_insert_map (query extracoldata : String) :
    ∀ rest : List (List String),
      countCommits (rest.map fun r => Event.execInsert query (r ++ [extracoldata])) = 0
  | [] => rfl
  | r :: rs => by
    simp [countCommits, List.filter_cons]

theorem countConnects_insert_map (query extracoldata : String) :
    ∀ rest : List (List String),
      countConnects (rest.map fun r => Event.execInsert query (r ++ [extracoldata])) = 0
  | [] => rfl
  | r :: rs => by
    simp [countConnects, List.filter_cons]

/-- Effect of the write loop of write_records_to_db: when the date string is
nonempty every data row is inserted with the date appended and one insert event
recorded per row; when it is empty nothing at all is touched. -/
theorem write_foldl_spec (extracoldata query : String) :
    ∀ (rest : List (List String)) (w : World),
      (rest.foldl (write_step extracoldata query) w).table =
        w.table ++ (if extracoldata = "" then []
          else rest.map fun r => DbRow.mk r extracoldata) ∧
      (rest.foldl (write_step extracoldata query) w).events =
        w.events ++ (if extracoldata = "" then []
          else rest.map fun r => Event.execInsert query (r ++ [extracoldata]))
  | [], w => by simp
  | r :: rs, w => by
    simp only [List.foldl_cons]
    have ih := write_foldl_spec extracoldata query rs (write_step extracoldata query w r)
    by_cases hx : extracoldata = ""
    · have hstep : write_step extracoldata query w r = w := by
        simp [write_step, hx]
      rw [hstep] at ih ⊢
      simpa [hx] using ih
    · have hstep : write_step extracoldata query w r =
          { table := w.table ++ [⟨r, extracoldata⟩],
            events := w.events ++ [Event.execInsert query (r ++ [extracoldata])] } := by
        simp [write_step, bne_iff_ne, hx]
      rw [hstep] at ih ⊢
      obtain ⟨iht, ihe⟩ := ih
      refine ⟨?_, ?_⟩
      · rw [iht]; simp [hx]
      · rw [ihe]; simp [hx]

theorem write_foldl_table (extracoldata query : String) (rest : List (List String))
    (w : World) :
    (rest.foldl (write_step extracoldata query) w).table =
      w.table ++ (if extracoldata = "" then []
        else rest.map fun r => DbRow.mk r extracoldata) :=
  (write_foldl_spec extracoldata query rest w).1

theorem write_foldl_events (extracoldata query : String) (rest : List (List String))
    (w : World) :
    (rest.foldl (write_step extracoldata query) w).events =
      w.events ++ (if extracoldata = "" then []
        else rest.map fun r => Event.execInsert query (r ++ [extracoldata])) :=
  (write_foldl_spec extracoldata query rest w).2

/-- C2 counterexample: a file list with one data row after the header, the
insert executed for it (nonempty date), one insert event recorded, but the
returned value is 2, the length of the original list, not the count 1 of data
rows submitted. -/
theorem C2_counterexample :
    (write_records_to_db [["h"], ["a"]] "2021-01-01" "q" 2 ⟨[], []⟩).2 = Except.ok 2 ∧
    countInserts (write_records_to_db [["h"], ["a"]] "2021-01-01" "q" 2 ⟨[], []⟩).1.events =
      1 :=
  ⟨rfl, rfl⟩

/-- C2 amended: when an insert is executed for each of the n data rows of the
list (the date string is nonempty), the write operation records exactly n
insert executions and exactly one commit after them, but returns n + 1 rather
than n: the counter starts at 1 and is incremented once per data row. -/
theorem C2_write_records_amended (hd : List String) (rest : List (List String))
    (extracoldata query : String) (total : Nat) (w0 : World) (hx : extracoldata ≠ "") :
    (write_records_to_db (hd :: rest) extracoldata query total w0).2 =
      Except.ok (rest.length + 1) ∧
    countInserts (write_records_to_db (hd :: rest) extracoldata query total w0).1.events =
      countInserts w0.events + rest.length ∧
    countCommits (write_records_to_db (hd :: rest) extracoldata query total w0).1.events =
      countCommits w0.events + 1 := by
  have h := write_foldl_spec extracoldata query rest w0
  refine ⟨rfl, ?_, ?_⟩
  · show countInserts ((rest.foldl (write_step extracoldata query) w0).events ++
      [Event.commit]) = countInserts w0.events + rest.length
    rw [countInserts_append, h.2, if_neg hx, countInserts_append,
      countInserts_insert_map]
    rfl
  · show countCommits ((rest.foldl (write_step extracoldata query) w0).events ++
      [Event.commit]) = countCommits w0.events + 1
    rw [countCommits_append, h.2, if_neg hx, countCommits_append,
      countCommits_insert_map]
    rfl

/-- C2 witness: the amended theorem applied to a concrete two-data-row file. -/
theorem C2_witness :
    (write_records_to_db [["h2"], ["b"], ["c"]] "2021-02-02" "q2" 3 ⟨[], []⟩).2 =
      Except.ok 3 :=
  (C2_write_records_amended ["h2"] [["b"], ["c"]] "2021-02-02" "q2" 3 ⟨[], []⟩
    (by decide)).1

/-- Environment of the C1 failing input: the file holds a header and one data
row, the store is reachable and the table exists. -/
def envC1 : Env :=
  { files := fun p => if p = "c:\\in1.csv" then some [["h"], ["r"]] else none,
    connectOk := fun _ => true,
    tableOk := true }

/-- Arguments of the C1 failing input: an import type that is neither daily nor
full together with an empty extracoldata string, both accepted by the
validator. -/
def argsC1 : Args :=
  { importtype := some "Weekly", destinst := some "TSQL201", destdb := some "IvyDB",
    trustedconnection := some "yes", destuser := none, destpass := none,
    desttbl := some "T1", sourcefilepath := some "c:\\IN1.csv", extracoldata := some "" }

/-- C1: at this input one data row is read after the header but zero rows are
submitted, because the empty date string makes the loop skip every execute call;
the run nevertheless reports success and the process exits with status 0. The
row-count check compares the header-inclusive total 2 against a counter that
also ends at 2, so it can never fire, and the module guard discards the value
main returns in any case. The claim requires exit status 1 for a mismatch of
rowsWritten and totalRowsRead with no exception. -/
theorem C1_exit_code_at_mismatch :
    script_exit_code envC1 argsC1 = 0 ∧
    (main_run envC1 argsC1 ⟨[], []⟩).2 = Except.ok 0 ∧
    countInserts (main_run envC1 argsC1 ⟨[], []⟩).1.events = 0 ∧
    envC1.files "c:\\in1.csv" = some [["h"], ["r"]] :=
  ⟨rfl, rfl, rfl, rfl⟩

/-- Environment of the C3 runs: reachable store, existing table, a file with a
header and one data row at every path. -/
def envC3 : Env :=
  { files := fun _ => some [["h"], ["r"]], connectOk := fun _ => true, tableOk := true }

/-- First C3 run: non-trusted authentication with the credentials alice and
secretA supplied on the command line. -/
def argsC3A : Args :=
  { importtype := some "Full", destinst := some "srv", destdb := some "db",
    trustedconnection := some "no", destuser := some "alice", destpass := some "secretA",
    desttbl := some "t", sourcefilepath := some "f.csv", extracoldata := some "2021-03-23" }

/-- Second C3 run: identical except the supplied credentials are bob and
secretB. -/
def argsC3B : Args :=
  { argsC3A with destuser := some "bob", destpass := some "secretB" }

/-- C3: two non-trusted runs that differ only in the supplied credentials
produce bit-identical results and traces, and the connection is attempted with
the hard-coded credentials jabran and pass rather than the supplied ones, so
the supplied user and password never reach the store. -/
theorem C3_hardcoded_credentials :
    main_run envC3 argsC3A ⟨[], []⟩ = main_run envC3 argsC3B ⟨[], []⟩ ∧
    (main_run envC3 argsC3A ⟨[], []⟩).1.events.head? = some (Event.connectAttempt
      "Driver=\x7bSQL Server\x7d;Server=srv;Database=db;User=jabran;Password=pass;Trusted_Connection=no;") :=
  ⟨rfl, rfl⟩

theorem filter_diff_map_self (D : String) : ∀ tl : List (List String),
    ((tl.map fun r => DbRow.mk r D).filter fun r => r.diff != D) = []
  | [] => rfl
  | r :: rs => by
    simp [List.filter_cons, filter_diff_map_self D rs]

theorem filter_diff_idem (D : String) : ∀ t : List DbRow,
    ((t.filter fun r => r.diff != D).filter fun r => r.diff != D) =
      t.filter fun r => r.diff != D
  | [] => rfl
  | r :: rs => by
    by_cases h : (r.diff != D) = true
    · simp [List.filter_cons, h, filter_diff_idem D rs]
    · simp [List.filter_cons, h, filter_diff_idem D rs]

/-- Full characterization of a copy run against a reachable store with an
existing table and a file holding at least a header row: the table receives the
data rows tagged with the date (after the partition delete when the import type
is daily), the trace records two connect attempts, the probe, the optional
delete, the file open, the inserts and the bulk commit, and the returned
failure flag is 0 because the header-inclusive total always equals the final
counter value. -/
theorem copy_data_success (env : Env) (importtype destinst : String)
    (tc du dp : Option String) (destdb desttbl sourcefilepath extracol extracoldata : String)
    (w : World)
    (hconn : ∀ s, env.connectOk s = true) (htbl : env.tableOk = true)
    (hd : List String) (tl : List (List String))
    (hfile : env.files sourcefilepath = some (hd :: tl)) :
    copy_data_from_csv_to_sql_server_table env importtype destinst tc du dp destdb desttbl
        sourcefilepath extracol extracoldata w =
      ({ table := (if py_lower importtype == "daily" then
              w.table.filter fun r => r.diff != extracoldata
            else w.table) ++
            (if extracoldata = "" then []
             else tl.map fun r => DbRow.mk r extracoldata),
         events := w.events ++
           ([Event.connectAttempt (connection_string destinst tc "jabran" "pass" destdb),
             Event.connectAttempt (connection_string destinst tc "jabran" "pass" destdb),
             Event.execSql ("Select top 1 * from " ++ destdb ++ ".dbo." ++ desttbl),
             Event.commit] ++
            (if py_lower importtype == "daily" then
               [Event.execSql (generate_delete_query desttbl extracol extracoldata),
                Event.commit]
             else []) ++
            [Event.openFile sourcefilepath] ++
            (if extracoldata = "" then []
             else tl.map fun r => Event.execInsert
               (generate_insert_query desttbl (create_header_col_list desttbl hd extracol))
               (r ++ [extracoldata])) ++
            [Event.commit]) },
       Except.ok 0) := by
  by_cases hdy : py_lower importtype = "daily" <;>
    by_cases hx : extracoldata = "" <;>
    simp [copy_data_from_csv_to_sql_server_table, establish_db_connection,
      check_destination_table_existence, delete_table_data, read_csv,
      write_records_to_db, write_foldl_table, write_foldl_events,
      hconn, htbl, hfile, hdy, hx, List.append_assoc]

/-- C6: a daily run against a reachable store deletes the partition of the
derived date and re-inserts the file rows, so performing the import twice
leaves the destination table, and in particular the set and count of its rows
for the derived partition date, exactly as performing it once. -/
theorem C6_daily_reimport_idempotent (env : Env) (args : Args) (t0 : List DbRow)
    (D : String)
    (hval : validate_inputs args.importtype args.destinst args.destdb
      args.trustedconnection args.destuser args.destpass args.desttbl
      args.sourcefilepath args.extracoldata = Except.ok ())
    (hit : py_lower (args.importtype.getD "") = "daily")
    (hex : extract_date_from_filename (args.sourcefilepath.getD "") = Except.ok D)
    (hconn : ∀ s, env.connectOk s = true)
    (htbl : env.tableOk = true)
    (hd : List String) (tl : List (List String))
    (hfile : env.files (py_lower (args.sourcefilepath.getD "")) = some (hd :: tl)) :
    ∃ n1 n2 : Nat,
      (main_run env args ⟨t0, []⟩).2 = Except.ok n1 ∧
      (main_run env args ⟨(main_run env args ⟨t0, []⟩).1.table, []⟩).2 = Except.ok n2 ∧
      (main_run env args ⟨(main_run env args ⟨t0, []⟩).1.table, []⟩).1.table =
        (main_run env args ⟨t0, []⟩).1.table ∧
      ((main_run env args ⟨(main_run env args ⟨t0, []⟩).1.table, []⟩).1.table.filter
          fun r => r.diff == D) =
        ((main_run env args ⟨t0, []⟩).1.table.filter fun r => r.diff == D) := by
  have hmain : ∀ t : List DbRow, main_run env args ⟨t, []⟩ =
      copy_data_from_csv_to_sql_server_table env "daily"
        (py_lower (args.destinst.getD "")) args.trustedconnection args.destuser
        args.destpass (py_lower (args.destdb.getD "")) (py_lower (args.desttbl.getD ""))
        (py_lower (args.sourcefilepath.getD "")) "DiffDateTime" D ⟨t, []⟩ := by
    intro t
    unfold main_run derive_date
    simp only [hval, hit, hex, beq_self_eq_true, if_true]
  have hrun : ∀ t : List DbRow,
      (main_run env args ⟨t, []⟩).1.table =
        (t.filter fun r => r.diff != D) ++
          (if D = "" then [] else tl.map fun r => DbRow.mk r D) ∧
      (main_run env args ⟨t, []⟩).2 = Except.ok 0 := by
    intro t
    rw [hmain t, copy_data_success env "daily" (py_lower (args.destinst.getD ""))
      args.trustedconnection args.destuser args.destpass (py_lower (args.destdb.getD ""))
      (py_lower (args.desttbl.getD "")) (py_lower (args.sourcefilepath.getD ""))
      "DiffDateTime" D ⟨t, []⟩ hconn htbl hd tl hfile]
    constructor
    · simp [show (py_lower "daily" == "daily") = true from rfl]
    · rfl
  have h3 : (main_run env args ⟨(main_run env args ⟨t0, []⟩).1.table, []⟩).1.table =
      (main_run env args ⟨t0, []⟩).1.table := by
    rw [(hrun ((main_run env args ⟨t0, []⟩).1.table)).1, (hrun t0).1]
    by_cases hD : D = "" <;>
      simp [hD, List.filter_append, filter_diff_idem, filter_diff_map_self]
  exact ⟨0, 0, (hrun t0).2, (hrun _).2, h3, by rw [h3]⟩

/-- Environment of the C6 witness run: the source file holds a header and one
data row, the store is reachable and the table exists. -/
def envC6 : Env :=
  { files := fun p => if p = "y2021070719.csv" then some [["h6"], ["r6"]] else none,
    connectOk := fun _ => true,
    tableOk := true }

/-- Arguments of the C6 witness run: a daily import of a file whose name ends in
a valid date, the fixed suffix and the csv extension. -/
def argsC6 : Args :=
  { importtype := some "Daily", destinst := some "i6", destdb := some "d6",
    trustedconnection := some "yes", destuser := none, destpass := none,
    desttbl := some "t6", sourcefilepath := some "y2021070719.csv", extracoldata := none }

/-- C6 witness: the idempotence theorem applied to a concrete daily run. -/
theorem C6_witness :
    ∃ n1 n2 : Nat,
      (main_run envC6 argsC6 ⟨[], []⟩).2 = Except.ok n1 ∧
      (main_run envC6 argsC6 ⟨(main_run envC6 argsC6 ⟨[], []⟩).1.table, []⟩).2 =
        Except.ok n2 ∧
      (main_run envC6 argsC6 ⟨(main_run envC6 argsC6 ⟨[], []⟩).1.table, []⟩).1.table =
        (main_run envC6 argsC6 ⟨[], []⟩).1.table ∧
      ((main_run envC6 argsC6 ⟨(main_run envC6 argsC6 ⟨[], []⟩).1.table, []⟩).1.table.filter
          fun r => r.diff == "2021-07-07") =
        ((main_run envC6 argsC6 ⟨[], []⟩).1.table.filter fun r => r.diff == "2021-07-07") :=
  C6_daily_reimport_idempotent envC6 argsC6 [] "2021-07-07" rfl rfl rfl (fun _ => rfl) rfl
    ["h6"] [["r6"]] rfl

theorem countConnects_ite_inserts (c : Prop) [Decidable c] (query extracoldata : String)
    (tl : List (List String)) :
    countConnects (if c then []
      else tl.map fun r => Event.execInsert query (r ++ [extracoldata])) = 0 := by
  split_ifs
  · rfl
  · exact countConnects_insert_map query extracoldata tl

/-- Environment of the C8 runs: reachable store, existing table, a two row file
at every path. -/
def envC8 : Env :=
  { files := fun _ => some [["h8"], ["r8"]], connectOk := fun _ => true, tableOk := true }

/-- Arguments of the C8 runs: a plain full import over trusted authentication. -/
def argsC8 : Args :=
  { importtype := some "Full", destinst := some "i8", destdb := some "d8",
    trustedconnection := some "yes", destuser := none, destpass := none,
    desttbl := some "t8", sourcefilepath := some "s8.csv", extracoldata := some "2021-03-23" }

/-- C8 counterexample: a successful concrete run records two connection
attempts, refuting the claim that exactly one connection is opened and no
second one ever: establish_db_connection connects once inside the error
handler, discards that handle, and connects a second time with the same string
in its return statement. -/
theorem C8_counterexample :
    countConnects (main_run envC8 argsC8 ⟨[], []⟩).1.events = 2 ∧
    (main_run envC8 argsC8 ⟨[], []⟩).2 = Except.ok 0 :=
  ⟨rfl, rfl⟩

/-- C8 amended: every run that completes the import has opened exactly two
connections to the destination store, both with the same connection string: the
probe connect whose handle is discarded and the connect of the return
statement. Runs that fail before the gateway open none, and a run whose probe
fails has attempted one and exited with status 1. -/
theorem establish_ok_shape (env : Env) (destinst : String) (tc : Option String)
    (du dp ddb dtbl : String) (w w1 : World)
    (h : establish_db_connection env destinst tc du dp ddb dtbl w = (w1, Except.ok ())) :
    w1.events = w.events ++
      [Event.connectAttempt (connection_string destinst tc du dp ddb),
       Event.connectAttempt (connection_string destinst tc du dp ddb)] ∧
    w1.table = w.table := by
  simp only [establish_db_connection] at h
  split at h
  · simp only [Prod.mk.injEq] at h
    obtain ⟨hw, -⟩ := h
    subst hw
    exact ⟨rfl, rfl⟩
  · simp at h

theorem establish_fail_shape (env : Env) (destinst : String) (tc : Option String)
    (du dp ddb dtbl : String) (w w1 : World) (e : Halt)
    (h : establish_db_connection env destinst tc du dp ddb dtbl w = (w1, Except.error e)) :
    w1.events = w.events ++
      [Event.connectAttempt (connection_string destinst tc du dp ddb)] ∧
    w1.table = w.table ∧ e = Halt.exit 1 := by
  simp only [establish_db_connection] at h
  split at h
  · simp at h
  · simp only [Prod.mk.injEq] at h
    obtain ⟨hw, he⟩ := h
    subst hw
    exact ⟨rfl, rfl, by injection he with he2; exact he2.symm⟩

theorem check_ok_shape (env : Env) (ddb dtbl : String) (w w2 : World)
    (h : check_destination_table_existence env ddb dtbl w = (w2, Except.ok ())) :
    w2.events = w.events ++
      [Event.execSql ("Select top 1 * from " ++ ddb ++ ".dbo." ++ dtbl), Event.commit] ∧
    w2.table = w.table := by
  simp only [check_destination_table_existence] at h
  split at h
  · simp only [Prod.mk.injEq] at h
    obtain ⟨hw, -⟩ := h
    subst hw
    exact ⟨rfl, rfl⟩
  · simp at h

theorem check_fail_shape (env : Env) (ddb dtbl : String) (w w2 : World) (e : Halt)
    (h : check_destination_table_existence env ddb dtbl w = (w2, Except.error e)) :
    w2.events = w.events ++
      [Event.execSql ("Select top 1 * from " ++ ddb ++ ".dbo." ++ dtbl)] ∧
    w2.table = w.table ∧ e = Halt.exit 1 := by
  simp only [check_destination_table_existence] at h
  split at h
  · simp at h
  · simp only [Prod.mk.injEq] at h
    obtain ⟨hw, he⟩ := h
    subst hw
    exact ⟨rfl, rfl, by injection he with he2; exact he2.symm⟩

theorem read_csv_shape (env : Env) (p dtbl : String) (w w4 : World)
    (r : Except Halt (List (List String)))
    (h : read_csv env p dtbl w = (w4, r)) :
    w4.events = w.events ++ [Event.openFile p] ∧ w4.table = w.table := by
  simp only [read_csv] at h
  split at h <;>
    (simp only [Prod.mk.injEq] at h
     obtain ⟨hw, -⟩ := h
     subst hw
     exact ⟨rfl, rfl⟩)

theorem C8_two_connections_amended (env : Env) (args : Args) (t0 : List DbRow)
    (w' : World) (n : Nat)
    (h : main_run env args ⟨t0, []⟩ = (w', Except.ok n)) :
    countConnects w'.events = 2 := by
  unfold main_run at h
  cases hv : validate_inputs args.importtype args.destinst args.destdb
      args.trustedconnection args.destuser args.destpass args.desttbl
      args.sourcefilepath args.extracoldata with
  | error e => rw [hv] at h; simp at h
  | ok u =>
    cases u
    rw [hv] at h
    cases hdd : derive_date args with
    | error e => rw [hdd] at h; simp at h
    | ok od =>
      rw [hdd] at h
      cases od with
      | none => simp at h
      | some date =>
        simp only [] at h
        simp only [copy_data_from_csv_to_sql_server_table] at h
        cases hE : establish_db_connection env (py_lower (args.destinst.getD ""))
            args.trustedconnection "jabran" "pass" (py_lower (args.destdb.getD ""))
            (py_lower (args.desttbl.getD "")) ⟨t0, []⟩ with
        | mk w1 r1 =>
          rw [hE] at h
          cases r1 with
          | error e => simp at h
          | ok u1 =>
            cases u1
            simp only [] at h
            cases hC : check_destination_table_existence env
                (py_lower (args.destdb.getD "")) (py_lower (args.desttbl.getD "")) w1 with
            | mk w2 r2 =>
              rw [hC] at h
              cases r2 with
              | error e => simp at h
              | ok u2 =>
                cases u2
                simp only [] at h
                cases hR : read_csv env (py_lower (args.sourcefilepath.getD ""))
                    (py_lower (args.desttbl.getD ""))
                    (if py_lower (py_lower (args.importtype.getD "")) == "daily" then
                      delete_table_data
                        (generate_delete_query (py_lower (args.desttbl.getD ""))
                          "DiffDateTime" date) date (py_lower (args.desttbl.getD "")) w2
                     else w2) with
                | mk w4 r4 =>
                  rw [hR] at h
                  cases r4 with
                  | error e => simp at h
                  | ok readers =>
                    simp only [] at h
                    cases readers with
                    | nil => simp at h
                    | cons hd tl =>
                      simp only [write_records_to_db] at h
                      simp only [Prod.mk.injEq] at h
                      obtain ⟨hw, -⟩ := h
                      subst hw
                      have hEs := (establish_ok_shape env (py_lower (args.destinst.getD ""))
                        args.trustedconnection "jabran" "pass"
                        (py_lower (args.destdb.getD "")) (py_lower (args.desttbl.getD ""))
                        ⟨t0, []⟩ w1 hE).1
                      have hCs := (check_ok_shape env (py_lower (args.destdb.getD ""))
                        (py_lower (args.desttbl.getD "")) w1 w2 hC).1
                      have hRs := (read_csv_shape env (py_lower (args.sourcefilepath.getD ""))
                        (py_lower (args.desttbl.getD "")) _ w4 _ hR).1
                      simp only [write_foldl_events, countConnects_append, hRs]
                      by_cases hdy : py_lower (py_lower (args.importtype.getD "")) == "daily" <;>
                        simp [hdy, delete_table_data, hCs, hEs, countConnects_append,
                          countConnects_ite_inserts, countConnects] <;>
                        (intro a h1 x hx h2; subst h2; rfl)

/-- C8 witness: the amended theorem applied to a concrete successful run. -/
theorem C8_witness :
    ∃ (w : World) (n : Nat), main_run envC8 argsC8 ⟨[], []⟩ = (w, Except.ok n) ∧
      countConnects w.events = 2 := by
  refine ⟨_, _, rfl, ?_⟩
  exact C8_two_connections_amended envC8 argsC8 [] _ _ rfl

/-- C10: a run that passes validation and derives a date, against a reachable
store with an existing table, crashes with an uncaught IndexError when the
source file contains zero rows (not even a header): fetching the header row
indexes into an empty list, and none of the logged error paths is taken. -/
theorem C10_empty_file_index_error (env : Env) (args : Args) (t0 : List DbRow) (d : String)
    (hval : validate_inputs args.importtype args.destinst args.destdb
      args.trustedconnection args.destuser args.destpass args.desttbl
      args.sourcefilepath args.extracoldata = Except.ok ())
    (hdate : derive_date args = Except.ok (some d))
    (hconn : ∀ s, env.connectOk s = true)
    (htbl : env.tableOk = true)
    (hfile : env.files (py_lower (args.sourcefilepath.getD "")) = some []) :
    (main_run env args ⟨t0, []⟩).2 = Except.error (Halt.uncaught PyExc.indexError) := by
  unfold main_run
  rw [hval]
  simp only []
  rw [hdate]
  simp only []
  simp only [copy_data_from_csv_to_sql_server_table, establish_db_connection,
    check_destination_table_existence, read_csv, hconn, htbl, hfile, if_true]

/-- Environment of the C10 witness run: the source file exists but is entirely
empty, the store is reachable and the table exists. -/
def envC10 : Env :=
  { files := fun p => if p = "c:\\e10.csv" then some [] else none,
    connectOk := fun _ => true,
    tableOk := true }

/-- Arguments of the C10 witness run: a full import with a valid explicit
date. -/
def argsC10 : Args :=
  { importtype := some "Full", destinst := some "i10", destdb := some "d10",
    trustedconnection := some "yes", destuser := none, destpass := none,
    desttbl := some "t10", sourcefilepath := some "c:\\E10.csv",
    extracoldata := some "2021-03-23" }

/-- C10 witness: the theorem applied to a concrete empty-file run. -/
theorem C10_witness :
    (main_run envC10 argsC10 ⟨[], []⟩).2 = Except.error (Halt.uncaught PyExc.indexError) :=
  C10_empty_file_index_error envC10 argsC10 [] "2021-03-23" rfl rfl (fun _ => rfl) rfl rfl


/-- Use of a single recorded event that the orchestrator lowercasing dictates:
every connection attempt embeds the lowercased instance and database, every SQL
statement (probe, delete, insert) embeds the lowercased table identifier, and
every file open names the lowercased source path. -/
def lowered_use (args : Args) (e : Event) : Prop :=
  match e with
  | Event.connectAttempt s =>
      s = connection_string (py_lower (args.destinst.getD "")) args.trustedconnection
        "jabran" "pass" (py_lower (args.destdb.getD ""))
  | Event.execSql q =>
      q = "Select top 1 * from " ++ py_lower (args.destdb.getD "") ++ ".dbo." ++
        py_lower (args.desttbl.getD "") ∨
      ∃ d, q = generate_delete_query (py_lower (args.desttbl.getD "")) "DiffDateTime" d
  | Event.execInsert q _ =>
      ∃ cols, q = generate_insert_query (py_lower (args.desttbl.getD "")) cols
  | Event.commit => True
  | Event.openFile p => p = py_lower (args.sourcefilepath.getD "")

theorem forall_mem_append2 {P : Event → Prop} {a b : List Event}
    (ha : ∀ e ∈ a, P e) (hb : ∀ e ∈ b, P e) : ∀ e ∈ a ++ b, P e := by
  intro e he
  rcases List.mem_append.mp he with h | h
  · exact ha e h
  · exact hb e h

/-- C9: in every run, every recorded store or file interaction uses the
lowercased instance, database, table and source file path: the file is opened
at the lowercased path and the table identifier appears lowercased in the
probe, the delete and the insert statements, whatever the casing supplied on
the command line. -/
theorem C9_lowercased_usage (env : Env) (args : Args) (t0 : List DbRow) :
    ∀ e ∈ (main_run env args ⟨t0, []⟩).1.events, lowered_use args e := by
  unfold main_run
  cases hv : validate_inputs args.importtype args.destinst args.destdb
      args.trustedconnection args.destuser args.destpass args.desttbl
      args.sourcefilepath args.extracoldata with
  | error e1 => simp
  | ok u =>
    cases u
    simp only []
    cases hdd : derive_date args with
    | error e1 => simp
    | ok od =>
      cases od with
      | none => simp
      | some date =>
        simp only []
        simp only [copy_data_from_csv_to_sql_server_table]
        have hconnpair : ∀ e ∈
            [Event.connectAttempt (connection_string (py_lower (args.destinst.getD ""))
              args.trustedconnection "jabran" "pass" (py_lower (args.destdb.getD ""))),
             Event.connectAttempt (connection_string (py_lower (args.destinst.getD ""))
              args.trustedconnection "jabran" "pass" (py_lower (args.destdb.getD "")))],
            lowered_use args e :=
          List.forall_mem_cons.mpr ⟨rfl,
            List.forall_mem_cons.mpr ⟨rfl, List.forall_mem_nil _⟩⟩
        have hchk : ∀ e ∈
            [Event.execSql ("Select top 1 * from " ++ py_lower (args.destdb.getD "") ++
              ".dbo." ++ py_lower (args.desttbl.getD "")), Event.commit],
            lowered_use args e :=
          List.forall_mem_cons.mpr ⟨Or.inl rfl,
            List.forall_mem_cons.mpr ⟨trivial, List.forall_mem_nil _⟩⟩
        have hchk1 : ∀ e ∈
            [Event.execSql ("Select top 1 * from " ++ py_lower (args.destdb.getD "") ++
              ".dbo." ++ py_lower (args.desttbl.getD ""))],
            lowered_use args e :=
          List.forall_mem_cons.mpr ⟨Or.inl rfl, List.forall_mem_nil _⟩
        have hopen : ∀ e ∈ [Event.openFile (py_lower (args.sourcefilepath.getD ""))],
            lowered_use args e :=
          List.forall_mem_cons.mpr ⟨rfl, List.forall_mem_nil _⟩
        have hcommit : ∀ e ∈ ([Event.commit] : List Event), lowered_use args e :=
          List.forall_mem_cons.mpr ⟨trivial, List.forall_mem_nil _⟩
        have hdel : ∀ e ∈
            [Event.execSql (generate_delete_query (py_lower (args.desttbl.getD ""))
              "DiffDateTime" date), Event.commit],
            lowered_use args e :=
          List.forall_mem_cons.mpr ⟨Or.inr ⟨date, rfl⟩,
            List.forall_mem_cons.mpr ⟨trivial, List.forall_mem_nil _⟩⟩
        cases hE : establish_db_connection env (py_lower (args.destinst.getD ""))
            args.trustedconnection "jabran" "pass" (py_lower (args.destdb.getD ""))
            (py_lower (args.desttbl.getD "")) ⟨t0, []⟩ with
        | mk w1 r1 =>
          cases r1 with
          | error e1 =>
            simp only []
            rw [(establish_fail_shape env _ _ _ _ _ _ _ _ _ hE).1]
            exact forall_mem_append2 (List.forall_mem_nil _)
              (List.forall_mem_cons.mpr ⟨rfl, List.forall_mem_nil _⟩)
          | ok u1 =>
            cases u1
            simp only []
            have hEs := (establish_ok_shape env _ _ _ _ _ _ _ _ hE).1
            have hw1 : ∀ e ∈ w1.events, lowered_use args e := by
              rw [hEs]
              exact forall_mem_append2 (List.forall_mem_nil _) hconnpair
            cases hC : check_destination_table_existence env
                (py_lower (args.destdb.getD "")) (py_lower (args.desttbl.getD "")) w1 with
            | mk w2 r2 =>
              cases r2 with
              | error e2 =>
                simp only []
                rw [(check_fail_shape env _ _ _ _ _ hC).1]
                exact forall_mem_append2 hw1 hchk1
              | ok u2 =>
                cases u2
                simp only []
                have hCs := (check_ok_shape env _ _ _ _ hC).1
                have hw2 : ∀ e ∈ w2.events, lowered_use args e := by
                  rw [hCs]
                  exact forall_mem_append2 hw1 hchk
                cases hR : read_csv env (py_lower (args.sourcefilepath.getD ""))
                    (py_lower (args.desttbl.getD ""))
                    (if py_lower (py_lower (args.importtype.getD "")) == "daily" then
                      delete_table_data
                        (generate_delete_query (py_lower (args.desttbl.getD ""))
                          "DiffDateTime" date) date (py_lower (args.desttbl.getD "")) w2
                     else w2) with
                | mk w4 r4 =>
                  have hRs := (read_csv_shape env _ _ _ _ _ hR).1
                  have hw4 : ∀ e ∈ w4.events, lowered_use args e := by
                    rw [hRs]
                    refine forall_mem_append2 ?_ hopen
                    by_cases hdy :
                        (py_lower (py_lower (args.importtype.getD "")) == "daily") = true
                    · rw [if_pos hdy]
                      simp only [delete_table_data]
                      exact forall_mem_append2 hw2 hdel
                    · rw [if_neg hdy]
                      exact hw2
                  cases r4 with
                  | error e4 =>
                    simp only []
                    exact hw4
                  | ok readers =>
                    cases readers with
                    | nil =>
                      simp only []
                      exact hw4
                    | cons hd tl =>
                      simp only [write_records_to_db]
                      have hmid : ∀ e ∈
                          (if date = "" then ([] : List Event)
                           else tl.map fun r => Event.execInsert
                             (generate_insert_query (py_lower (args.desttbl.getD ""))
                               (create_header_col_list (py_lower (args.desttbl.getD ""))
                                 hd "DiffDateTime"))
                             (r ++ [date])), lowered_use args e := by
                        by_cases hxd : date = ""
                        · rw [if_pos hxd]
                          exact List.forall_mem_nil _
                        · rw [if_neg hxd]
                          intro e2 he2
                          obtain ⟨x, -, rfl⟩ := List.mem_map.mp he2
                          exact ⟨_, rfl⟩
                      intro e he
                      simp only [write_foldl_events, List.append_assoc] at he
                      exact forall_mem_append2 hw4 (forall_mem_append2 hmid hcommit) e he

/-- Environment of the C9 witness run. -/
def envC9 : Env :=
  { files := fun p => if p = "c:\\data\\file9.csv" then some [["H9"], ["v9"]] else none,
    connectOk := fun _ => true,
    tableOk := true }

/-- Arguments of the C9 witness run: instance, database, table and path all
supplied in mixed or upper case. -/
def argsC9 : Args :=
  { importtype := some "Full", destinst := some "I9", destdb := some "D9",
    trustedconnection := some "yes", destuser := none, destpass := none,
    desttbl := some "T9", sourcefilepath := some "C:\\DATA\\FILE9.CSV",
    extracoldata := some "2021-03-23" }

/-- C9 witness: in a concrete mixed-case run the recorded file open carries the
lowercased path, by the theorem applied to that run and that event. -/
theorem C9_witness :
    lowered_use argsC9 (Event.openFile "c:\\data\\file9.csv") :=
  C9_lowercased_usage envC9 argsC9 [] (Event.openFile "c:\\data\\file9.csv") (by decide)
